import Mathlib

/-!
Verification of the dashboard-case-study repository: a shallow embedding of
the snapshot-capture, lineage-mapping and dashboard-query services
(`pkg/service`), the models (`pkg/models/models.go`) and the Postgres
repository layer (`pkg/repository`), together with theorems settling the
specification claims.

Conventions of the embedding:
* Go `time.Time` is modelled by `GoTime`, carrying exactly the accessors the
  code uses: `Year()` (field `year`), `YearDay()` (computed from `month`/`day`
  with the Gregorian leap rule, as in Go), `Unix()` (field `unix`, seconds)
  and `Sub` (difference of `unix`).  Consistency between the calendar fields
  and `unix` is not enforced; no theorem needs it.
* Go machine integers stay well inside range here, so `Int`/`Nat` are used
  directly.
* `map[string]T` values are association lists (`List (String × T)`) with
  first-match lookup; Go's `m[k] = v` is modelled by erase-then-cons, and
  `delete(m, k)` by erase, preserving Go's overwrite semantics.
* Fallible Go calls (`(T, error)` returns) are `Except String T`; interfaces
  (`EmployeeRepository`, `OrgRepository`, `ResponseRepository`) are passed as
  function parameters, and the concrete Postgres implementations are modelled
  over in-memory tables following their SQL.
* Mutable state (the `OrgMapper` cache, the response store) is threaded
  explicitly; `time.Now()` and `repository.GenerateID()` become explicit
  parameters.
-/

namespace DashboardCase

/-- Model of Go `time.Time` restricted to the accessors the code uses. -/
structure GoTime where
  year : Int
  month : Nat
  day : Nat
  unix : Int
deriving DecidableEq, Repr

/-- Gregorian leap-year rule, as used by Go `time.YearDay`. -/
def isLeap (y : Int) : Bool :=
  y % 4 == 0 && (y % 100 != 0 || y % 400 == 0)

/-- Cumulative days before the first of each month (index 1–12), non-leap. -/
def daysBeforeMonth (m : Nat) : Nat :=
  [0, 0, 31, 59, 90, 120, 151, 181, 212, 243, 273, 304, 334].getD m 0

/-- Go `time.YearDay`: 1-based ordinal day of the year. -/
def yearDay (t : GoTime) : Nat :=
  daysBeforeMonth t.month + (if isLeap t.year && decide (t.month > 2) then 1 else 0) + t.day

/-- Embeds `calculateAge` from pkg/service (models.go lines 227-233): year
difference, minus one when the as-of day-of-year precedes the birthday. -/
def calculateAge (birthDate asOf : GoTime) : Int :=
  let age := asOf.year - birthDate.year
  if yearDay asOf < yearDay birthDate then age - 1 else age

/-- Go `int(x)` conversion: truncation toward zero. -/
def goTrunc (x : ℚ) : Int :=
  if 0 ≤ x then ⌊x⌋ else ⌈x⌉

/-- Embeds `calculateTenure` (models.go lines 235-238): hours between hire date and
as-of divided by `24 * 365.25`, rounded toward zero at one decimal. -/
def calculateTenure (hireDate asOf : GoTime) : ℚ :=
  let years : ℚ := ((asOf.unix - hireDate.unix : Int) : ℚ) / 3600 / (24 * (365.25 : ℚ))
  (goTrunc (years * 10) : ℚ) / 10

/-- Rendering of a timestamp for the `snapshot_time` key; stands in for Go's
RFC3339 formatting (injective on the fields the model carries). -/
def formatRFC3339 (t : GoTime) : String :=
  toString t.year ++ "-" ++ toString t.month ++ "-" ++ toString t.day ++ "T" ++ toString t.unix

/-- Embeds `generateVersionID` (models.go lines 222-224): `employeeID_unixSeconds`. -/
def generateVersionID (employeeID : String) (timestamp : GoTime) : String :=
  employeeID ++ "_" ++ toString timestamp.unix

/-- A value stored in a `snapshot_core` map (`map[string]interface{}` in Go):
the capture code stores strings, an `int` age and a `float64` tenure. -/
inductive SVal where
  | s (x : String)
  | i (n : Int)
  | q (x : ℚ)
deriving DecidableEq, Repr

/-- A dashboard filter value: the query code stores strings and, after
lineage translation, string slices (`[]string`). -/
inductive FVal where
  | str (x : String)
  | list (xs : List String)
deriving DecidableEq, Repr

/-- First-match lookup in an association list (Go map read). -/
def lookupA {α : Type} (k : String) : List (String × α) → Option α
  | [] => none
  | (k1, v) :: rest => if k1 = k then some v else lookupA k rest

/-- Remove every entry with the given key (Go `delete(m, k)`). -/
def delA {α : Type} (k : String) : List (String × α) → List (String × α)
  | [] => []
  | (k1, v) :: rest => if k1 = k then delA k rest else (k1, v) :: delA k rest

/-- Go map write `m[k] = v`: overwrite any previous binding. -/
def setA {α : Type} (k : String) (v : α) (l : List (String × α)) : List (String × α) :=
  (k, v) :: delA k l

/-- Embeds `models.Employee` (models.go lines 40-51); `UpdatedAt` is unused by the
services and omitted. -/
structure Employee where
  employeeId : String
  name : String
  email : String
  unitId : String
  performanceGrade : String
  role : String
  birthDate : GoTime
  hireDate : GoTime
  tenantId : String
deriving DecidableEq, Repr

/-- Embeds `models.EmployeeHistory` (models.go lines 54-63): SCD-2 attribute row;
validity bounds are unix seconds, `validTo = none` meaning current. -/
structure EmployeeHistory where
  id : String
  employeeId : String
  attributeType : String
  attributeValue : String
  validFrom : Int
  validTo : Option Int
  versionId : String
  tenantId : String
deriving DecidableEq, Repr

/-- Embeds `models.OrgUnit` (models.go lines 66-75). -/
structure OrgUnit where
  unitId : String
  unitName : String
  validFrom : Int
  validTo : Option Int
  isActive : Bool
  tenantId : String
  path : String
deriving DecidableEq, Repr

/-- Embeds `models.OrgUnitMapping` (models.go lines 78-87): a lineage edge;
`relationshipType` is one of RENAME/MERGE/SPLIT. -/
structure OrgUnitMapping where
  id : String
  sourceUnitId : String
  targetUnitIDs : List String
  relationshipType : String
  effectiveDate : Int
deriving DecidableEq, Repr

/-- Embeds `models.Response` (models.go lines 27-37); `Answers` (a nilable
`json.RawMessage`) is `Option String`. -/
structure Response where
  responseId : String
  surveyId : String
  employeeId : String
  submittedAt : Int
  snapshotCore : List (String × SVal)
  versionId : String
  answers : Option String
  tenantId : String
  createdAt : Int
deriving DecidableEq, Repr

/-- Embeds `models.TimeRange` (models.go lines 106-109); bounds in unix seconds.
Fields are renamed `fromTime`/`toTime` because `from` is reserved. -/
structure TimeRange where
  fromTime : Int
  toTime : Int
deriving DecidableEq, Repr

/-- Embeds `models.DashboardQuery` (models.go lines 98-103); `FilterMode` is a Go
string type, kept as `String`. -/
structure DashboardQuery where
  filters : List (String × FVal)
  filterMode : String
  timeRange : TimeRange
  tenantId : String
deriving DecidableEq, Repr

/-- Embeds `models.ProvenanceInfo` (models.go lines 120-124). -/
structure ProvenanceInfo where
  historicalCount : Nat
  currentCount : Nat
  historicalUnits : List String
deriving DecidableEq, Repr

/-- Embeds `models.DashboardResult` (models.go lines 112-117); the unused
`Aggregations` field is omitted. -/
structure DashboardResult where
  responses : List Response
  count : Nat
  provenance : Option ProvenanceInfo
deriving DecidableEq, Repr

/-- Embeds `models.Snapshot` (models.go lines 90-95). -/
structure Snapshot where
  employeeId : String
  snapshotCore : List (String × SVal)
  versionId : String
  timestamp : GoTime
deriving DecidableEq, Repr

/-- The three declared filter modes (models.go lines 11-15). -/
def filterModeHistorical : String := "HISTORICAL"

/-- Embeds `FilterModeCurrent` constant. -/
def filterModeCurrent : String := "CURRENT"

/-- Embeds `FilterModeHybrid` constant. -/
def filterModeHybrid : String := "HYBRID"

/-- Evaluation to `true` exactly on `Except.ok` (Go `err == nil`). -/
def exceptIsOk {α : Type} : Except String α → Bool
  | .ok _ => true
  | .error _ => false

/-! ## Repository layer (pkg/repository, modelled over in-memory tables) -/

/-- Embeds `PostgresEmployeeRepository.GetByID`: `SELECT ... FROM employees WHERE
employee_id = $1` — the current live row, with no temporal predicate. -/
def pgGetByID (table : List Employee) (employeeID : String) : Except String Employee :=
  match table.find? (fun e => e.employeeId == employeeID) with
  | some emp => .ok emp
  | none => .error ("employee not found: " ++ employeeID)

/-- Embeds `PostgresEmployeeRepository.GetHistory`: rows of `employee_history` with
`employee_id = $1 AND valid_from <= $2 AND (valid_to IS NULL OR valid_to > $2)`
— the attribute versions valid at `asOf`. -/
def getHistory (table : List EmployeeHistory) (employeeID : String) (asOf : Int) : List EmployeeHistory :=
  table.filter (fun h =>
    h.employeeId == employeeID && decide (h.validFrom ≤ asOf) &&
    (match h.validTo with
     | none => true
     | some vt => decide (asOf < vt)))

/-- Embeds `PostgresOrgRepository.GetUnitAtTime`: first row of `org_units_history`
with `unit_id = $1 AND valid_from <= $2 AND (valid_to IS NULL OR valid_to > $2)`. -/
def pgGetUnitAtTime (table : List OrgUnit) (unitID : String) (asOf : GoTime) : Except String OrgUnit :=
  match table.find? (fun u =>
    u.unitId == unitID && decide (u.validFrom ≤ asOf.unix) &&
    (match u.validTo with
     | none => true
     | some vt => decide (asOf.unix < vt))) with
  | some unit => .ok unit
  | none => .error "org unit not found"

/-- Embeds `PostgresOrgRepository.FindMappingsByTarget`: rows of `org_unit_mapping`
with `$1 = ANY(target_unit_ids)` (result order is irrelevant to the set-level
claims and not modelled). -/
def findMappingsByTarget (table : List OrgUnitMapping) (targetUnitID : String) : List OrgUnitMapping :=
  table.filter (fun m => m.targetUnitIDs.contains targetUnitID)

/-- Text rendering of a snapshot value, as produced by the SQL accessor
`snapshot_core->>field`. -/
def renderS : SVal → String
  | .s x => x
  | .i n => toString n
  | .q x => toString x

/-- One JSONB filter conjunct of `PostgresResponseRepository.Query`.  For a
string value this is the literal `snapshot_core->>field = value` comparison.
For a `[]string` value (the lineage-resolved unit-id set) the intended
IN-clause semantics is used — the generous reading of the code, whose literal
`%v`-rendering of a slice matches strictly fewer rows. -/
def matchesFilter (core : List (String × SVal)) (k : String) (v : FVal) : Bool :=
  match v with
  | .str s =>
    match lookupA k core with
    | some sv => renderS sv == s
    | none => false
  | .list xs =>
    match lookupA k core with
    | some sv => xs.contains (renderS sv)
    | none => false

/-- Embeds `PostgresResponseRepository.Query` over an in-memory table: tenant match,
`submitted_at BETWEEN`, and every filter conjunct (the `ORDER BY`/`LIMIT
1000` clauses do not affect the membership claims and are not modelled). -/
def storeQuery (table : List Response) (q : DashboardQuery) : Except String (List Response) :=
  .ok (table.filter (fun r =>
    r.tenantId == q.tenantId &&
    decide (q.timeRange.fromTime ≤ r.submittedAt) &&
    decide (r.submittedAt ≤ q.timeRange.toTime) &&
    q.filters.all (fun kv => matchesFilter r.snapshotCore kv.1 kv.2)))

/-! ## SnapshotService (pkg/service) -/

/-- Embeds `SnapshotService.buildCoreSnapshot` (models.go lines 193-220). -/
def buildCoreSnapshot (employee : Employee) (orgUnit : OrgUnit) (timestamp : GoTime) : List (String × SVal) :=
  [("employee_name", .s employee.name),
   ("employee_email", .s employee.email),
   ("department", .s orgUnit.unitName),
   ("unit_id", .s orgUnit.unitId),
   ("unit_path", .s orgUnit.path),
   ("performance_grade", .s employee.performanceGrade),
   ("role", .s employee.role),
   ("age", .i (calculateAge employee.birthDate timestamp)),
   ("tenure", .q (calculateTenure employee.hireDate timestamp)),
   ("snapshot_version", .s "1.0"),
   ("snapshot_time", .s (formatRFC3339 timestamp))]

/-- Embeds `SnapshotService.CaptureSnapshot` (models.go lines 166-191): reads the
employee via `GetByID` (current live row), then the unit via `GetUnitAtTime`
at `timestamp`; either failure aborts the capture. -/
def CaptureSnapshot
    (getByID : String → Except String Employee)
    (getUnitAtTime : String → GoTime → Except String OrgUnit)
    (employeeID : String) (timestamp : GoTime) : Except String Snapshot :=
  match getByID employeeID with
  | .error e => .error ("failed to get employee: " ++ e)
  | .ok employee =>
    match getUnitAtTime employee.unitId timestamp with
    | .error e => .error ("failed to get org unit: " ++ e)
    | .ok orgUnit =>
      .ok { employeeId := employeeID,
            snapshotCore := buildCoreSnapshot employee orgUnit timestamp,
            versionId := generateVersionID employeeID timestamp,
            timestamp := timestamp }

/-! ## OrgMapper (pkg/service) -/

/-- The `OrgMapper` cache: current name → historical unit-id list. -/
abbrev Cache := List (String × List String)

/-- Embeds `OrgMapper.MapCurrentToHistorical` (models.go lines 369-387): checks the
cache, otherwise — per the `TODO: Implement backward graph traversal` stub —
returns the single-element list holding the anchor itself, and caches it.
The Go method can signal an error but never does; the result pair is
`(unit-id list, updated cache)`. -/
def mapCurrentToHistorical (cache : Cache) (currentUnitName : String) : List String × Cache :=
  match lookupA currentUnitName cache with
  | some cached => (cached, cache)
  | none => ([currentUnitName], setA currentUnitName [currentUnitName] cache)

/-- One BFS round of the backward traversal documented in the repository's
design document (`MapCurrentToHistorical` there): pop the queue head, skip if
visited, otherwise mark it and append the source of every edge targeting it
to both result and queue.  The Go loop runs until the queue empties; a fuel
argument bounds the recursion, sufficient for the acyclic edge sets the data
model guarantees. -/
def mapHistLoop (edges : List OrgUnitMapping) : Nat → List String → List String → List String → List String
  | 0, _, _, result => result
  | _ + 1, [], _, result => result
  | fuel + 1, u :: queue, visited, result =>
    if u ∈ visited then mapHistLoop edges fuel queue visited result
    else
      let visited' := u :: visited
      let step := (findMappingsByTarget edges u).foldl
        (fun (acc : List String × List String) m =>
          if m.sourceUnitId ∈ visited' then acc
          else (acc.1 ++ [m.sourceUnitId], acc.2 ++ [m.sourceUnitId]))
        (result, queue)
      mapHistLoop edges fuel step.2 visited' step.1

/-- The backward graph traversal as documented in the repository's own design
document (the intended `MapCurrentToHistorical`): BFS from the anchor over
edges in which a reached unit appears as a target, collecting sources. -/
def mapCurrentToHistoricalDoc (edges : List OrgUnitMapping) (currentUnitID : String) : List String :=
  mapHistLoop edges ((edges.length + 1) * (edges.length + 1) + 1) [currentUnitID] [] [currentUnitID]

/-! ## DashboardService (pkg/service) -/

/-- Embeds `DashboardService.queryHistorical` (models.go lines 272-283): the query
is passed to the response repository unchanged. -/
def queryHistorical
    (repoQ : DashboardQuery → Except String (List Response))
    (q : DashboardQuery) : Except String DashboardResult :=
  match repoQ q with
  | .error e => .error e
  | .ok responses => .ok { responses := responses, count := responses.length, provenance := none }

/-- The filter rewrite performed by `DashboardService.queryCurrent`: when the
`department` filter holds a string, map it through the mapper, delete the
`department` key and write the resolved list under `unit_id`; otherwise the
filters pass through untouched. -/
def resolveCurrentFilters (cache : Cache) (filters : List (String × FVal)) : List (String × FVal) × Cache :=
  match lookupA "department" filters with
  | some (.str dept) =>
    let res := mapCurrentToHistorical cache dept
    (setA "unit_id" (FVal.list res.1) (delA "department" filters), res.2)
  | _ => (filters, cache)

/-- Embeds `DashboardService.queryCurrent` (models.go lines 285-307). -/
def queryCurrent
    (repoQ : DashboardQuery → Except String (List Response))
    (cache : Cache) (q : DashboardQuery) : Except String DashboardResult × Cache :=
  let rf := resolveCurrentFilters cache q.filters
  match repoQ { q with filters := rf.1 } with
  | .error e => (.error e, rf.2)
  | .ok responses =>
    (.ok { responses := responses, count := responses.length, provenance := none }, rf.2)

/-- The dedup loop body of `DashboardService.mergeResults`: keep each
response whose id has not been seen, threading the seen set; applied to the
concatenation historical-then-current it reproduces the two Go loops. -/
def dedupById (seen : List String) : List Response → List Response
  | [] => []
  | r :: rs =>
    if r.responseId ∈ seen then dedupById seen rs
    else r :: dedupById (r.responseId :: seen) rs

/-- Embeds `DashboardService.mergeResults` (models.go lines 326-353): deduplicate by
`response_id`, historical list first, and attach the two source counts as
provenance (`HistoricalUnits` is left at its zero value). -/
def mergeResults (historical current : DashboardResult) : DashboardResult :=
  let merged := dedupById [] (historical.responses ++ current.responses)
  { responses := merged,
    count := merged.length,
    provenance := some { historicalCount := historical.count,
                         currentCount := current.count,
                         historicalUnits := [] } }

/-- Embeds `DashboardService.queryHybrid` (models.go lines 309-324): run the
historical query, then the current query, failing on the first error;
otherwise merge with provenance. -/
def queryHybrid
    (repoQ : DashboardQuery → Except String (List Response))
    (cache : Cache) (q : DashboardQuery) : Except String DashboardResult × Cache :=
  match queryHistorical repoQ q with
  | .error e => (.error e, cache)
  | .ok historicalResult =>
    match queryCurrent repoQ cache q with
    | (.error e, cache') => (.error e, cache')
    | (.ok currentResult, cache') => (.ok (mergeResults historicalResult currentResult), cache')

/-- Embeds `DashboardService.Query` (models.go lines 259-270): dispatch on the
filter mode; any string other than the three constants is rejected. -/
def Query
    (repoQ : DashboardQuery → Except String (List Response))
    (cache : Cache) (q : DashboardQuery) : Except String DashboardResult × Cache :=
  if q.filterMode = filterModeHistorical then (queryHistorical repoQ q, cache)
  else if q.filterMode = filterModeCurrent then queryCurrent repoQ cache q
  else if q.filterMode = filterModeHybrid then queryHybrid repoQ cache q
  else (.error ("invalid filter mode: " ++ q.filterMode), cache)

/-! ## ResponseService (pkg/service) -/

/-- The `models.Response` literal built by `ResponseService.Submit`
(models.go lines 414-421): fields not listed in the Go literal —
`SubmittedAt`, `Answers`, `CreatedAt` — keep their zero values; in
particular `Answers` stays nil (`none`). -/
def mkSubmitResponse (genId surveyID employeeID tenantID : String) (snapshot : Snapshot) : Response :=
  { responseId := genId,
    surveyId := surveyID,
    employeeId := employeeID,
    submittedAt := 0,
    snapshotCore := snapshot.snapshotCore,
    versionId := snapshot.versionId,
    answers := none,
    tenantId := tenantID,
    createdAt := 0 }

/-- Embeds `ResponseService.Submit` (models.go lines 406-430): capture a snapshot at
`now` (`time.Now()`), build the response with a fresh id
(`repository.GenerateID()`, here `genId`), and store it; either failure
returns an error and leaves the store untouched.  The `answers` argument is
accepted exactly as in Go. -/
def Submit
    (getByID : String → Except String Employee)
    (getUnitAtTime : String → GoTime → Except String OrgUnit)
    (create : Response → List Response → Except String (List Response))
    (store : List Response) (genId : String) (now : GoTime)
    (surveyID employeeID tenantID : String)
    (answers : List (String × String)) : Except String Response × List Response :=
  match CaptureSnapshot getByID getUnitAtTime employeeID now with
  | .error e => (.error ("failed to capture snapshot: " ++ e), store)
  | .ok snapshot =>
    let response := mkSubmitResponse genId surveyID employeeID tenantID snapshot
    match create response store with
    | .error e => (.error ("failed to create response: " ++ e), store)
    | .ok store' => (.ok response, store')

/-! ## Concrete scenario data (spec §8) -/

/-- Spec §8 lineage: `unit_123` renamed (same id) effective 2024-06-01, then
split into `unit_456`/`unit_457` effective 2024-09-01 (times abstracted). -/
def scenarioEdges : List OrgUnitMapping :=
  [{ id := "m1", sourceUnitId := "unit_123", targetUnitIDs := ["unit_123"],
     relationshipType := "RENAME", effectiveDate := 100 },
   { id := "m2", sourceUnitId := "unit_123", targetUnitIDs := ["unit_456", "unit_457"],
     relationshipType := "SPLIT", effectiveDate := 200 }]

/-- The March response of spec §8: captured under the pre-rename name
"Sales APAC" with `unit_id = unit_123`. -/
def marchResponse : Response :=
  { responseId := "resp_march", surveyId := "survey_1", employeeId := "emp_1",
    submittedAt := 50,
    snapshotCore := [("department", .s "Sales APAC"), ("unit_id", .s "unit_123")],
    versionId := "emp_1_50", answers := none, tenantId := "tenant_1", createdAt := 50 }

/-- Spec §8 CURRENT-mode query: `department = "Revenue APAC"` over a range
covering the March response. -/
def c2Query : DashboardQuery :=
  { filters := [("department", .str "Revenue APAC")],
    filterMode := "CURRENT",
    timeRange := { fromTime := 0, toTime := 1000 },
    tenantId := "tenant_1" }

/-! ## Claim theorems -/

/-- C1: the claim states that resolving TO_HISTORICAL returns the transitive
closure of predecessor unit ids, so that after RENAME then SPLIT the anchors
`unit_456`/`unit_457` resolve to a set including `unit_123`.  The shipped
`MapCurrentToHistorical` is a one-hop stub returning only the anchor itself;
the backward BFS documented in the repository's design document does include
`unit_123`, so the code contradicts its own documentation. -/
theorem mapper_stub_misses_predecessors :
    (mapCurrentToHistorical [] "unit_456").1 = ["unit_456"] ∧
    "unit_123" ∉ (mapCurrentToHistorical [] "unit_456").1 ∧
    (mapCurrentToHistorical [] "unit_457").1 = ["unit_457"] ∧
    "unit_123" ∈ mapCurrentToHistoricalDoc scenarioEdges "unit_456" ∧
    "unit_123" ∈ mapCurrentToHistoricalDoc scenarioEdges "unit_457" := by
  refine ⟨rfl, by decide, rfl, by decide, by decide⟩

/-- C2: the claim states that in CURRENT mode `department = "Revenue APAC"`
resolves to the identifier set {unit_123}, so the March response (snapshot
`unit_id = unit_123`) is included.  The code resolves the department to the
queried *name* {"Revenue APAC"} (the stub), so the rewritten `unit_id`
predicate excludes the March response and the query returns empty. -/
theorem current_mode_excludes_renamed_unit_response :
    (Query (storeQuery [marchResponse]) [] c2Query).1 =
      .ok { responses := [], count := 0, provenance := none } ∧
    (mapCurrentToHistorical [] "Revenue APAC").1 = ["Revenue APAC"] ∧
    "unit_123" ∉ (mapCurrentToHistorical [] "Revenue APAC").1 := by
  refine ⟨rfl, rfl, by decide⟩

/-- C8: `calculateAge` equals the calendar-year difference minus one exactly
when the day-of-year of the as-of instant is strictly earlier than the
day-of-year of the birth date, and the two boundary examples hold. -/
theorem age_birthday_correction (b a : GoTime) :
    (calculateAge b a = a.year - b.year - 1 ↔ yearDay a < yearDay b) ∧
    calculateAge ⟨1990, 6, 15, 0⟩ ⟨2024, 3, 1, 0⟩ = 33 ∧
    calculateAge ⟨1990, 6, 15, 0⟩ ⟨2024, 7, 1, 0⟩ = 34 := by
  refine ⟨?_, by decide, by decide⟩
  unfold calculateAge
  by_cases h : yearDay a < yearDay b <;> simp [h] <;> omega

/-- C10: resolving the same anchor twice without intervening ingestion
yields the same unit-id set — the second call is served from the cache the
first call populated (or hit). -/
theorem resolution_idempotent (cache : Cache) (name : String) :
    (mapCurrentToHistorical (mapCurrentToHistorical cache name).2 name).1 =
      (mapCurrentToHistorical cache name).1 := by
  unfold mapCurrentToHistorical setA
  cases h : lookupA name cache with
  | some cached => simp [h]
  | none => simp [lookupA]

/-! ## Concrete data for the capture claims -/

/-- Current live employee row: the name has already changed to "Jane New". -/
def emp1 : Employee :=
  { employeeId := "emp_1", name := "Jane New", email := "jane@example.com",
    unitId := "unit_1", performanceGrade := "A", role := "Manager",
    birthDate := ⟨1990, 6, 15, -100⟩, hireDate := ⟨2019, 6, 1, 0⟩,
    tenantId := "tenant_1" }

/-- The live `employees` table. -/
def employeesTable : List Employee := [emp1]

/-- The SCD-2 history row: at unix time 500 the employee's name attribute was
still "Jane Old" (valid on [0, 1000)). -/
def nameHist : EmployeeHistory :=
  { id := "h1", employeeId := "emp_1", attributeType := "name",
    attributeValue := "Jane Old", validFrom := 0, validTo := some 1000,
    versionId := "v1", tenantId := "tenant_1" }

/-- The `employee_history` table. -/
def historyTable : List EmployeeHistory := [nameHist]

/-- A unit valid across the capture instant. -/
def unit1 : OrgUnit :=
  { unitId := "unit_1", unitName := "Sales APAC", validFrom := 0, validTo := none,
    isActive := true, tenantId := "tenant_1", path := "root.sales" }

/-- The `org_units_history` table. -/
def orgTable : List OrgUnit := [unit1]

/-- The capture instant: unix time 500, inside the history row's validity. -/
def t500 : GoTime := ⟨2024, 3, 15, 500⟩

/-- The `employee_name` entry of a capture result (`none` on error). -/
def snapNameOf (r : Except String Snapshot) : Option SVal :=
  match r with
  | .ok snap => lookupA "employee_name" snap.snapshotCore
  | .error _ => none

/-- C3 counterexample: at unix time 500 the employee-history record valid at
that instant carries the name "Jane Old", yet the captured snapshot stores
"Jane New" — the current live row, not the record valid at the timestamp. -/
theorem capture_uses_live_employee_counterexample :
    snapNameOf (CaptureSnapshot (pgGetByID employeesTable) (pgGetUnitAtTime orgTable)
        "emp_1" t500) = some (.s "Jane New") ∧
    getHistory historyTable "emp_1" t500.unix = [nameHist] ∧
    nameHist.attributeValue = "Jane Old" ∧
    SVal.s "Jane New" ≠ SVal.s "Jane Old" := by
  refine ⟨rfl, rfl, rfl, by decide⟩

/-- C3 amended: `CaptureSnapshot` builds the snapshot from the employee's
*current live* row (`GetByID`, no temporal predicate) while the unit row is
fetched as of the capture timestamp. -/
theorem capture_reads_live_employee_and_unit_at_time
    (empTbl : List Employee) (orgTbl : List OrgUnit) (eid : String) (ts : GoTime)
    (emp : Employee) (unit : OrgUnit)
    (hemp : pgGetByID empTbl eid = .ok emp)
    (hunit : pgGetUnitAtTime orgTbl emp.unitId ts = .ok unit) :
    CaptureSnapshot (pgGetByID empTbl) (pgGetUnitAtTime orgTbl) eid ts =
      .ok { employeeId := eid,
            snapshotCore := buildCoreSnapshot emp unit ts,
            versionId := generateVersionID eid ts,
            timestamp := ts } := by
  simp [CaptureSnapshot, hemp, hunit]

/-- C3 amended, witness at the concrete tables. -/
theorem capture_reads_live_witness :
    pgGetByID employeesTable "emp_1" = .ok emp1 ∧
    pgGetUnitAtTime orgTable emp1.unitId t500 = .ok unit1 ∧
    CaptureSnapshot (pgGetByID employeesTable) (pgGetUnitAtTime orgTable) "emp_1" t500 =
      .ok { employeeId := "emp_1",
            snapshotCore := buildCoreSnapshot emp1 unit1 t500,
            versionId := generateVersionID "emp_1" t500,
            timestamp := t500 } :=
  ⟨rfl, rfl,
   capture_reads_live_employee_and_unit_at_time employeesTable orgTable "emp_1" t500 emp1 unit1 rfl rfl⟩

/-- C4: if either the employee read or the unit read fails, the capture
fails, `Submit` returns an error, and the response store is unchanged. -/
theorem submit_aborts_on_failed_read
    (getByID : String → Except String Employee)
    (getUnitAtTime : String → GoTime → Except String OrgUnit)
    (create : Response → List Response → Except String (List Response))
    (store : List Response) (genId : String) (now : GoTime)
    (surveyID employeeID tenantID : String) (answers : List (String × String))
    (hfail : (∃ msg, getByID employeeID = .error msg) ∨
             (∃ emp msg, getByID employeeID = .ok emp ∧
               getUnitAtTime emp.unitId now = .error msg)) :
    (∃ msg, CaptureSnapshot getByID getUnitAtTime employeeID now = .error msg) ∧
    (∃ msg, (Submit getByID getUnitAtTime create store genId now
        surveyID employeeID tenantID answers).1 = .error msg) ∧
    (Submit getByID getUnitAtTime create store genId now
        surveyID employeeID tenantID answers).2 = store := by
  rcases hfail with ⟨msg, hmsg⟩ | ⟨emp, msg, hemp, hunit⟩
  · refine ⟨⟨"failed to get employee: " ++ msg, ?_⟩, ?_, ?_⟩ <;>
      simp [CaptureSnapshot, Submit, hmsg]
  · refine ⟨⟨"failed to get org unit: " ++ msg, ?_⟩, ?_, ?_⟩ <;>
      simp [CaptureSnapshot, Submit, hemp, hunit]

/-- An always-failing employee read, for the C4 witness. -/
def failingGetByID : String → Except String Employee :=
  fun eid => .error ("employee not found: " ++ eid)

/-- A unit read over the concrete org table, for the C4 witness. -/
def okGetUnitAtTime : String → GoTime → Except String OrgUnit :=
  pgGetUnitAtTime orgTable

/-- An append-only create, for the C4 witness. -/
def appendCreate : Response → List Response → Except String (List Response) :=
  fun r st => .ok (st ++ [r])

/-- C4 witness: a failed employee read makes `Submit` fail and leaves the
(empty) store empty. -/
theorem submit_aborts_witness :
    (∃ msg, CaptureSnapshot failingGetByID okGetUnitAtTime "emp_1" t500 = .error msg) ∧
    (∃ msg, (Submit failingGetByID okGetUnitAtTime appendCreate [] "id_1" t500
        "survey_1" "emp_1" "tenant_1" []).1 = .error msg) ∧
    (Submit failingGetByID okGetUnitAtTime appendCreate [] "id_1" t500
        "survey_1" "emp_1" "tenant_1" []).2 = [] :=
  submit_aborts_on_failed_read failingGetByID okGetUnitAtTime appendCreate [] "id_1" t500
    "survey_1" "emp_1" "tenant_1" []
    (Or.inl ⟨"employee not found: emp_1", rfl⟩)

/-- C5: the `answers` argument of `Submit` never reaches the stored response:
`Submit` is insensitive to it, and the response literal it passes to the
store always carries `Answers = nil`. -/
theorem submit_never_persists_answers
    (getByID : String → Except String Employee)
    (getUnitAtTime : String → GoTime → Except String OrgUnit)
    (create : Response → List Response → Except String (List Response))
    (store : List Response) (genId : String) (now : GoTime)
    (surveyID employeeID tenantID : String)
    (answers1 answers2 : List (String × String)) (snap : Snapshot) :
    Submit getByID getUnitAtTime create store genId now
        surveyID employeeID tenantID answers1 =
      Submit getByID getUnitAtTime create store genId now
        surveyID employeeID tenantID answers2 ∧
    (mkSubmitResponse genId surveyID employeeID tenantID snap).answers = none :=
  ⟨rfl, rfl⟩

/-- C7: a filter mode outside {HISTORICAL, CURRENT, HYBRID} is rejected with
an invalid-argument error before any store access: the result is the same
for every response repository and the cache is untouched. -/
theorem query_rejects_unknown_filter_mode
    (q : DashboardQuery) (cache : Cache)
    (repoQ repoQ' : DashboardQuery → Except String (List Response))
    (h1 : q.filterMode ≠ filterModeHistorical)
    (h2 : q.filterMode ≠ filterModeCurrent)
    (h3 : q.filterMode ≠ filterModeHybrid) :
    Query repoQ cache q = (.error ("invalid filter mode: " ++ q.filterMode), cache) ∧
    Query repoQ cache q = Query repoQ' cache q := by
  constructor <;> simp [Query, h1, h2, h3]

/-- A query with the unknown filter mode "AS_OF", for the C7 witness. -/
def badModeQuery : DashboardQuery :=
  { filters := [("department", .str "Sales APAC")],
    filterMode := "AS_OF",
    timeRange := { fromTime := 0, toTime := 1000 },
    tenantId := "tenant_1" }

/-- A response repository that would answer with the March response, for the
C7 witness. -/
def marchRepo : DashboardQuery → Except String (List Response) :=
  storeQuery [marchResponse]

/-- A response repository that always fails, for the C7 witness. -/
def failingRepo : DashboardQuery → Except String (List Response) :=
  fun _ => .error "store unreachable"

/-- C7 witness: the mode "AS_OF" is rejected identically whether the store
is reachable or not. -/
theorem query_rejects_unknown_mode_witness :
    Query marchRepo [] badModeQuery =
      (.error ("invalid filter mode: " ++ badModeQuery.filterMode), []) ∧
    Query marchRepo [] badModeQuery = Query failingRepo [] badModeQuery :=
  query_rejects_unknown_filter_mode badModeQuery [] marchRepo failingRepo
    (by decide) (by decide) (by decide)

/-! ## Lemmas about the association-list operations and the merge loop -/

/-- Deleting one key leaves lookups of any other key unchanged. -/
theorem lookupA_delA_ne {α : Type} (k kdel : String) (h : k ≠ kdel)
    (l : List (String × α)) : lookupA k (delA kdel l) = lookupA k l := by
  induction l with
  | nil => rfl
  | cons p rest ih =>
    obtain ⟨k1, v⟩ := p
    by_cases h1 : k1 = kdel
    · subst h1
      have h2 : ¬ k1 = k := fun hk => h hk.symm
      simp [delA, lookupA, ih, h2]
    · by_cases h3 : k1 = k
      · subst h3
        simp [delA, lookupA, h1]
      · simp [delA, lookupA, h1, h3, ih]

/-- Ids present after the dedup loop: exactly the incoming ids outside the
seen set. -/
theorem mem_map_dedupById (x : String) (l : List Response) (seen : List String) :
    x ∈ (dedupById seen l).map Response.responseId ↔
      (x ∈ l.map Response.responseId ∧ x ∉ seen) := by
  induction l generalizing seen with
  | nil => simp [dedupById]
  | cons r rs ih =>
    by_cases h : r.responseId ∈ seen
    · simp only [dedupById, if_pos h, ih, List.map_cons, List.mem_cons]
      constructor
      · rintro ⟨hx, hs⟩
        exact ⟨Or.inr hx, hs⟩
      · rintro ⟨hx | hx, hs⟩
        · exact absurd (hx ▸ h) hs
        · exact ⟨hx, hs⟩
    · simp only [dedupById, if_neg h, ih, List.map_cons, List.mem_cons]
      constructor
      · rintro (hx | ⟨hx, hs⟩)
        · exact ⟨Or.inl hx, hx ▸ h⟩
        · exact ⟨Or.inr hx, fun hmem => hs (Or.inr hmem)⟩
      · rintro ⟨hx | hx, hs⟩
        · exact Or.inl hx
        · by_cases he : x = r.responseId
          · exact Or.inl he
          · exact Or.inr ⟨hx, by simp [he, hs]⟩

/-- The dedup loop emits each response id at most once. -/
theorem nodup_dedupById (l : List Response) (seen : List String) :
    ((dedupById seen l).map Response.responseId).Nodup := by
  induction l generalizing seen with
  | nil => simp [dedupById]
  | cons r rs ih =>
    by_cases h : r.responseId ∈ seen
    · simpa [dedupById, h] using ih seen
    · simp only [dedupById, if_neg h, List.map_cons, List.nodup_cons]
      refine ⟨fun hmem => ?_, ih _⟩
      have := (mem_map_dedupById r.responseId rs (r.responseId :: seen)).mp hmem
      simp at this

/-- The dedup loop keeps, for each id not yet seen, the first response with
that id. -/
theorem find?_dedupById (x : String) (l : List Response) (seen : List String)
    (hx : x ∉ seen) :
    (dedupById seen l).find? (fun r => r.responseId == x) =
      l.find? (fun r => r.responseId == x) := by
  induction l generalizing seen with
  | nil => rfl
  | cons r rs ih =>
    by_cases h : r.responseId ∈ seen
    · have hne : (r.responseId == x) = false := by
        simp only [beq_eq_false_iff_ne, ne_eq]
        exact fun he => hx (he ▸ h)
      simp only [dedupById, if_pos h, List.find?_cons, hne]
      exact ih seen hx
    · by_cases he : r.responseId = x
      · have hpos : (r.responseId == x) = true := by simp [he]
        simp only [dedupById, if_neg h, List.find?_cons, hpos]
      · have hne : (r.responseId == x) = false := by simp [he]
        have hx' : x ∉ r.responseId :: seen := by
          simp only [List.mem_cons]
          rintro (hh | hh)
          · exact he hh.symm
          · exact hx hh
        simp only [dedupById, if_neg h, List.find?_cons, hne]
        exact ih _ hx'

/-- C6: `mergeResults` deduplicates by response id (each id at most once,
first-seen — historical-first — precedence, no id lost), the count is the
merged length, provenance records the two source counts, and `queryHybrid`
succeeds exactly when both sub-queries do. -/
theorem hybrid_merge_dedups_with_provenance (h c : DashboardResult) :
    ((mergeResults h c).responses.map Response.responseId).Nodup ∧
    (∀ x, x ∈ (mergeResults h c).responses.map Response.responseId ↔
      x ∈ (h.responses ++ c.responses).map Response.responseId) ∧
    (∀ x, (mergeResults h c).responses.find? (fun r => r.responseId == x) =
      (h.responses ++ c.responses).find? (fun r => r.responseId == x)) ∧
    (mergeResults h c).count = (mergeResults h c).responses.length ∧
    (mergeResults h c).provenance =
      some { historicalCount := h.count, currentCount := c.count, historicalUnits := [] } ∧
    (∀ repoQ cache q, exceptIsOk (queryHybrid repoQ cache q).1 =
      (exceptIsOk (queryHistorical repoQ q) && exceptIsOk (queryCurrent repoQ cache q).1)) := by
  refine ⟨nodup_dedupById _ _, ?_, ?_, rfl, rfl, ?_⟩
  · intro x
    simpa [mergeResults] using mem_map_dedupById x (h.responses ++ c.responses) []
  · intro x
    simpa [mergeResults] using
      find?_dedupById x (h.responses ++ c.responses) [] (List.not_mem_nil x)
  · intro repoQ cache q
    cases h1 : queryHistorical repoQ q with
    | error e => simp [queryHybrid, h1, exceptIsOk]
    | ok hist =>
      rcases hq : queryCurrent repoQ cache q with ⟨r2, c2⟩
      cases r2 with
      | error e => simp [queryHybrid, h1, hq, exceptIsOk]
      | ok cur => simp [queryHybrid, h1, hq, exceptIsOk]

/-- The set of organization-identifying filter keys: the department name the
translator consumes and the unit-id key it writes. -/
def orgFilterKeys : List String := ["department", "unit_id"]

/-- C9: filters on keys outside the organizational pair are forwarded to the
stored-snapshot query with the same key and value: the CURRENT-mode rewrite
leaves their lookup unchanged, and the HISTORICAL path returns the store's
answer for the untouched query. -/
theorem non_org_filters_pass_through
    (cache : Cache) (filters : List (String × FVal)) (k : String)
    (hk : k ∉ orgFilterKeys) :
    lookupA k (resolveCurrentFilters cache filters).1 = lookupA k filters ∧
    (∀ repoQ q rs, repoQ q = .ok rs →
      queryHistorical repoQ q =
        .ok { responses := rs, count := rs.length, provenance := none }) := by
  have hd : k ≠ "department" := by
    intro hh
    exact hk (by simp [orgFilterKeys, hh])
  have hu : k ≠ "unit_id" := by
    intro hh
    exact hk (by simp [orgFilterKeys, hh])
  constructor
  · unfold resolveCurrentFilters
    cases hdep : lookupA "department" filters with
    | none => rfl
    | some v =>
      cases v with
      | str dept =>
        simp only [setA, lookupA, if_neg (Ne.symm hu)]
        rw [lookupA_delA_ne k "unit_id" hu, lookupA_delA_ne k "department" hd]
      | list xs => rfl
  · intro repoQ q rs hok
    simp [queryHistorical, hok]

/-- Filters with both a non-organizational and an organizational entry, for
the C9 witness. -/
def demoFilters : List (String × FVal) :=
  [("role", .str "Manager"), ("department", .str "Revenue APAC")]

/-- C9 witness: the `role` filter survives the CURRENT-mode rewrite
unchanged. -/
theorem non_org_filters_witness :
    lookupA "role" (resolveCurrentFilters [] demoFilters).1 =
      lookupA "role" demoFilters :=
  (non_org_filters_pass_through [] demoFilters "role" (by decide)).1

end DashboardCase
